import Mathlib

/-!
Verification development for the WanderMind travel-itinerary application.

The data model is embedded from `frontend/src/types/index.ts`; the client
state handlers are embedded from `frontend/src/app/map/page.tsx`,
`frontend/src/app/onboard/page.tsx`, `frontend/src/contexts/AuthContext.tsx`
and `frontend/src/components/RouteTimeline.tsx`.  The backend (session,
route/refine gateways and the user/plan store) is not part of the frontend
sources; where a property depends on it, the server operation is modelled
from the specification and marked as such in its doc comment.
-/

namespace WanderMind

/-- Embeds `Attraction` from `types/index.ts`.  Optional TS fields become
`Option`; TS `number` is embedded as `Rat`. -/
structure Attraction where
  id : Option String
  name : String
  description : String
  duration_hr : Rat
  category : String
  latitude : Option Rat
  longitude : Option Rat
  coordinates : Option (Rat × Rat)
  selected : Option Bool
deriving DecidableEq, Repr

/-- Embeds `RouteStop` from `types/index.ts`. -/
structure RouteStop where
  attraction : Attraction
  order : Nat
  startTime : String
  endTime : String
  travelTimeToNext : Option Nat
  day : Nat
deriving DecidableEq, Repr

/-- Embeds `TravelRoute` from `types/index.ts`. -/
structure TravelRoute where
  stops : List RouteStop
  totalDuration : Rat
  summary : String
deriving DecidableEq, Repr

/-- Embeds `UserSession` from `types/index.ts`. -/
structure UserSession where
  sessionId : String
  city : String
  startDate : String
  endDate : String
  interests : List String
deriving DecidableEq, Repr

/-- Chat message role (`'user' | 'assistant'` in `types/index.ts`). -/
inductive Role where
  | user
  | assistant
deriving DecidableEq, Repr

/-- Embeds `Message` from `types/index.ts`; the `Date` timestamp becomes an
abstract `Nat` tick supplied by the caller. -/
structure Message where
  role : Role
  content : String
  timestamp : Nat
deriving DecidableEq, Repr

/-- Strict lexicographic order on character lists, comparing code points. -/
def charListLT : List Char → List Char → Bool
  | [], [] => false
  | [], _ :: _ => true
  | _ :: _, [] => false
  | a :: as, b :: bs =>
    if a.toNat < b.toNat then true
    else if b.toNat < a.toNat then false
    else charListLT as bs

/-- Boolean string comparison used to embed comparisons of `"HH:MM"`
time-of-day strings: `a` is at or before `b` in lexicographic order. -/
def strLE (a b : String) : Bool :=
  !(charListLT b.data a.data)

/-- Requests the map page can issue through `lib/api.ts`: `api.generateRoute`
posts `{session_id, attractions}` to `/api/route`; `api.refineRoute` posts
`{session_id, message, current_route}` to `/api/refine`. -/
inductive ApiRequest where
  | routeReq (session_id : String) (attractions : List Attraction)
  | refineReq (session_id : String) (message : String) (current_route : TravelRoute)
deriving DecidableEq, Repr

/-- The pieces of `MapPage` React state (`app/map/page.tsx`) touched by the
handlers embedded below. -/
structure MapState where
  session : Option UserSession
  attractions : List Attraction
  route : Option TravelRoute
  messages : List Message
  isLoading : Bool
  showTimeline : Bool
  isViewingSavedPlan : Bool
deriving DecidableEq, Repr

/-- The update `{ ...a, selected: !a.selected }` from `handleAttractionClick`;
a missing `selected` is falsy in TS, so it flips to `true`. -/
def toggleSelected (a : Attraction) : Attraction :=
  { a with selected := some (!(a.selected.getD false)) }

/-- Embeds `handleAttractionClick` (`app/map/page.tsx`): flip `selected` on
every attraction whose `id` equals the clicked attraction's `id`. -/
def handleAttractionClick (attractions : List Attraction) (clicked : Attraction) :
    List Attraction :=
  attractions.map fun a => if a.id = clicked.id then toggleSelected a else a

/-- `attractions.filter((a) => a.selected)` from `handleGenerateRoute`. -/
def selectedOf (attractions : List Attraction) : List Attraction :=
  attractions.filter fun a => a.selected.getD false

/-- Embeds `handleGenerateRoute` (`app/map/page.tsx`).  The outcome of the
awaited `api.generateRoute` call is passed in as `apiResult` (consulted only
when the call is actually issued); the second component records the request
sent to the API, `none` when the handler returns before calling it. -/
def handleGenerateRoute (st : MapState) (now : Nat)
    (apiResult : Except Unit TravelRoute) : MapState × Option ApiRequest :=
  match st.session with
  | none => (st, none)
  | some session =>
    let sel := selectedOf st.attractions
    if sel.length < 2 then
      ({ st with messages := st.messages ++
          [⟨Role.assistant, "Please select at least 2 attractions to generate a route.", now⟩] },
       none)
    else
      match apiResult with
      | Except.ok generatedRoute =>
        ({ st with
            route := some generatedRoute,
            showTimeline := true,
            messages := st.messages ++ [⟨Role.assistant, generatedRoute.summary, now⟩],
            isLoading := false },
         some (ApiRequest.routeReq session.sessionId sel))
      | Except.error _ =>
        ({ st with
            messages := st.messages ++
              [⟨Role.assistant, "Sorry, I had trouble generating your route. Please try again.", now⟩],
            isLoading := false },
         some (ApiRequest.routeReq session.sessionId sel))

/-- `route?.stops?.length || 0` over the optional route state. -/
def totalStopsOf (route : Option TravelRoute) : Nat :=
  match route with
  | some r => r.stops.length
  | none => 0

/-- TS `s.includes(pat)` for a non-empty pattern: `splitOn` yields more than
one piece exactly when the pattern occurs. -/
def containsSub (s pat : String) : Bool :=
  decide (2 ≤ (s.splitOn pat).length)

/-- Embeds the canned-response selection of the saved-plan branch of
`handleSendMessage` (`app/map/page.tsx`), keyed on substrings of the
lower-cased user message. -/
def savedPlanResponse (session : UserSession) (route : Option TravelRoute)
    (message : String) : String :=
  let lowerMessage := message.toLower
  let totalStops := totalStopsOf route
  if containsSub lowerMessage "change" || containsSub lowerMessage "modify" ||
      containsSub lowerMessage "edit" then
    "I can see you'd like to make changes to this saved plan. Since this is a saved plan, I can't directly modify it. However, you have a few options:\n\n1. **Create a new trip** - Start a fresh planning session with your desired changes\n2. **Review your route** - Use the timeline to see all your planned stops\n3. **Take notes** - Make notes about what you'd like to change for your actual trip\n\nWould you like me to help you understand any part of this saved itinerary?"
  else if containsSub lowerMessage "time" || containsSub lowerMessage "duration" ||
      containsSub lowerMessage "how long" then
    "This saved plan has " ++ toString totalStops ++ " stops across your trip from " ++
      session.startDate ++ " to " ++ session.endDate ++
      ". You can see the estimated time at each attraction in the timeline on the right. The route is optimized to minimize travel time between locations!"
  else if containsSub lowerMessage "cost" || containsSub lowerMessage "price" ||
      containsSub lowerMessage "budget" then
    "Great question about costs! While I don't have specific pricing information stored for this saved plan, I can tell you that your itinerary includes " ++
      toString totalStops ++ " attractions in " ++ session.city ++
      ". For current pricing and tickets, I recommend checking each attraction's official website before your trip."
  else if containsSub lowerMessage "restaurant" || containsSub lowerMessage "food" ||
      containsSub lowerMessage "eat" then
    "Looking for dining recommendations? Your saved plan focuses on attractions, but " ++
      session.city ++
      " has amazing food scenes! For your actual trip, I'd suggest researching local restaurants near each stop. You can also check travel apps like TripAdvisor or Google Maps for real-time recommendations near your planned attractions."
  else if containsSub lowerMessage "hotel" || containsSub lowerMessage "accommodation" ||
      containsSub lowerMessage "stay" then
    "For accommodations in " ++ session.city ++
      ", I recommend looking for hotels central to your planned attractions. Since your trip is from " ++
      session.startDate ++ " to " ++ session.endDate ++
      ", book early for the best rates! Check booking sites like Hotels.com, Booking.com, or Airbnb."
  else
    "I'm here to help you understand this saved plan for " ++ session.city ++
      "! Your itinerary includes " ++ toString totalStops ++
      " stops. You can:\n\n• Review each stop in the timeline on the right\n• View attractions on the map\n• Ask me questions about timing, activities, or general trip advice\n\nKeep in mind this is a saved plan - to create a new customized itinerary, you can start a new trip planning session from your dashboard. What would you like to know?"

/-- The guidance message of the no-route branch of `handleSendMessage`. -/
def planningGuidance (session : UserSession) : String :=
  "Great question! I can help you plan your trip to " ++ session.city ++
    ". Right now, I've shown you some amazing attractions on the map. Here's what you can do:\n\n1. **Browse the attractions** - Click on the markers to learn more about each place\n2. **Select your favorites** - Click on attractions to add them to your trip (you need at least 2)\n3. **Generate a route** - Once you've selected attractions, click \"Generate Route\" to create an optimized itinerary\n4. **Refine your plan** - After generating a route, you can chat with me to make adjustments\n\nIs there anything specific you'd like to know about " ++
    session.city ++ "?"

/-- Embeds `handleSendMessage` (`app/map/page.tsx`).  The user message is
appended first; the three branches are: saved-plan canned response, no-route
planning guidance, and the refine API call.  Only the refine branch issues a
request and can throw; its outcome is passed in as `apiResult`.  In the catch
handler the conditional message expression resolves to the refine-failure
text, since the only throwing branch has `isViewingsavedPlan` false and a
route present. -/
def handleSendMessage (st : MapState) (message : String) (now : Nat)
    (apiResult : Except Unit TravelRoute) : MapState × Option ApiRequest :=
  match st.session with
  | none => (st, none)
  | some session =>
    let st1 : MapState := { st with messages := st.messages ++ [⟨Role.user, message, now⟩] }
    if st.isViewingSavedPlan then
      ({ st1 with
          messages := st1.messages ++
            [⟨Role.assistant, savedPlanResponse session st.route message, now⟩],
          isLoading := false },
       none)
    else
      match st.route with
      | none =>
        ({ st1 with
            messages := st1.messages ++ [⟨Role.assistant, planningGuidance session, now⟩],
            isLoading := false },
         none)
      | some route =>
        match apiResult with
        | Except.ok refinedRoute =>
          ({ st1 with
              route := some refinedRoute,
              messages := st1.messages ++ [⟨Role.assistant, refinedRoute.summary, now⟩],
              isLoading := false },
           some (ApiRequest.refineReq session.sessionId message route))
        | Except.error _ =>
          ({ st1 with
              messages := st1.messages ++
                [⟨Role.assistant, "Sorry, I had trouble refining your route. Please try again.", now⟩],
              isLoading := false },
           some (ApiRequest.refineReq session.sessionId message route))

/-- The `/api/init` request body built by the onboarding page. -/
structure InitRequest where
  city : String
  startDate : String
  endDate : String
  interests : List String
deriving DecidableEq, Repr

/-- Result of the onboarding submit handler: the error banner text, and the
request issued to `api.initSession` (`none` when the handler returns early). -/
structure SubmitOutcome where
  error : Option String
  request : Option InitRequest
deriving DecidableEq, Repr

/-- Embeds `handleSubmit` (`app/onboard/page.tsx`): the guard
`!city || !startDate || !endDate || selectedInterests.length === 0` blocks the
API call (an empty TS string is falsy); otherwise the whole form is posted. -/
def handleSubmit (city startDate endDate : String) (interests : List String) :
    SubmitOutcome :=
  if city = "" ∨ startDate = "" ∨ endDate = "" ∨ interests = [] then
    ⟨some "Please fill in all fields and select at least one interest", none⟩
  else
    ⟨none, some ⟨city, startDate, endDate, interests⟩⟩

/-- Embeds the `User` record of `AuthContext.tsx`. -/
structure User where
  id : String
  email : String
  name : String
  interests : List String
  created_at : String
deriving DecidableEq, Repr

/-- The in-memory auth state of `AuthContext.tsx`. -/
structure AuthState where
  user : Option User
  token : Option String
deriving DecidableEq, Repr

/-- `localStorage.removeItem`, over storage modelled as a partial map. -/
def removeItem (ls : String → Option String) (key : String) :
    String → Option String :=
  fun k => if k = key then none else ls k

/-- Embeds `logout` (`AuthContext.tsx`): null out user and token, then remove
the three `wandermind_*` keys from localStorage. -/
def logout (_st : AuthState) (ls : String → Option String) :
    AuthState × (String → Option String) :=
  (⟨none, none⟩,
   removeItem (removeItem (removeItem ls "wandermind_token") "wandermind_user")
     "wandermind_session")

/-- One step of the `stops.reduce` in `RouteTimeline` (`RouteTimeline.tsx`):
append the stop to its day's bucket, creating the bucket if absent. -/
def pushToDay (acc : List (Nat × List RouteStop)) (stop : RouteStop) :
    List (Nat × List RouteStop) :=
  match acc with
  | [] => [(stop.day, [stop])]
  | (d, l) :: rest =>
    if d = stop.day then (d, l ++ [stop]) :: rest
    else (d, l) :: pushToDay rest stop

/-- Embeds `groupedByDay` (`RouteTimeline.tsx`): the day-keyed record built by
`stops.reduce`, as an association list (the JS engine enumerates the numeric
keys in ascending order; the claims below only concern bucket contents). -/
def groupedByDay (stops : List RouteStop) : List (Nat × List RouteStop) :=
  stops.foldl pushToDay []

/-- The bucket rendered for day `d` (an absent key yields no bucket). -/
def dayEntry (stops : List RouteStop) (d : Nat) : List RouteStop :=
  ((groupedByDay stops).lookup d).getD []

/-- Embeds `dayStops.sort((a, b) => a.order - b.order)`: a stable sort by
ascending `order` (ECMAScript `Array.prototype.sort` is stable). -/
def renderedDay (stops : List RouteStop) (d : Nat) : List RouteStop :=
  List.insertionSort (fun a b => a.order ≤ b.order) (dayEntry stops d)

/-- Flatten the day buckets back into one list of stops. -/
def joinGroups (groups : List (Nat × List RouteStop)) : List RouteStop :=
  (groups.map Prod.snd).flatten

/-- The server-side error taxonomy of spec §7. -/
inductive ApiError where
  | ValidationError
  | NotFoundError
  | AuthError
  | ForbiddenError
  | UpstreamError
  | ConflictError
deriving DecidableEq, Repr

/-- The maximal stable sort by ascending `order` of a list of stops. -/
def sortedByOrder (l : List RouteStop) : List RouteStop :=
  List.insertionSort (fun a b => a.order ≤ b.order) l

/-- Adjacent `startTime` values are non-decreasing along the list. -/
def startTimesNondec : List RouteStop → Bool
  | [] => true
  | [_] => true
  | a :: b :: rest => strLE a.startTime b.startTime && startTimesNondec (b :: rest)

/-- The §3 `RouteStop` ordering invariant, decidably: for every day present in
the route, the stops of that day sorted by `order` have non-decreasing
`startTime`. -/
def routeOrderedB (r : TravelRoute) : Bool :=
  ((r.stops.map RouteStop.day).dedup).all fun d =>
    startTimesNondec (sortedByOrder (r.stops.filter fun s => s.day == d))

namespace Gateway

/-- Modelled from the spec: the backend Route Gateway (§4.3) is not in src/
(only the frontend API client calls `/api/route`).  `generateRoute` requires
at least 2 attractions (ValidationError below the threshold), treats a failed
or unparseable model reply as UpstreamError, and validates the §3 ordering
invariant before returning; a reply violating the invariant is rejected with
UpstreamError (the deterministic recovery chosen once, per §9).  The opaque
external model call is the `modelReply` argument. -/
def generateRoute (_session : UserSession) (attractions : List Attraction)
    (modelReply : Except Unit TravelRoute) : Except ApiError TravelRoute :=
  if attractions.length < 2 then Except.error ApiError.ValidationError
  else
    match modelReply with
    | Except.error _ => Except.error ApiError.UpstreamError
    | Except.ok r =>
      if routeOrderedB r then Except.ok r else Except.error ApiError.UpstreamError

/-- Modelled from the spec: the backend Refinement Gateway (§4.4) is not in
src/.  `refine` validates the structural shape of the model reply exactly as
the Route Gateway does; on any parse failure it fails with UpstreamError. -/
def refine (_session : UserSession) (_route : TravelRoute) (_instruction : String)
    (modelReply : Except Unit TravelRoute) : Except ApiError TravelRoute :=
  match modelReply with
  | Except.error _ => Except.error ApiError.UpstreamError
  | Except.ok r =>
    if routeOrderedB r then Except.ok r else Except.error ApiError.UpstreamError

end Gateway

/-- The server-side `Session` record of spec §3. -/
structure Session where
  id : String
  city : String
  startDate : String
  endDate : String
  interests : List String
deriving DecidableEq, Repr

/-- The in-memory Session Store of spec §4.1. -/
structure SessionStore where
  sessions : List Session
deriving DecidableEq, Repr

/-- Modelled from the spec: the backend Session Store `create` (§4.1) is not
in src/.  It validates city non-empty, startDate ≤ endDate and interests
non-empty, failing with ValidationError otherwise; a fresh unique id is
supplied by the caller; the session is stored and returned. -/
def SessionStore.create (st : SessionStore) (city startDate endDate : String)
    (interests : List String) (freshId : String) :
    Except ApiError (Session × SessionStore) :=
  if city == "" || !(strLE startDate endDate) || interests.isEmpty then
    Except.error ApiError.ValidationError
  else
    let s : Session := ⟨freshId, city, startDate, endDate, interests⟩
    Except.ok (s, ⟨st.sessions ++ [s]⟩)

/-- The `SavedPlan` record of spec §3. -/
structure SavedPlan where
  id : String
  userId : String
  city : String
  startDate : String
  endDate : String
  interests : List String
  savedAt : Nat
  title : String
  route : TravelRoute
deriving DecidableEq, Repr

/-- The in-memory User/Plan Store of spec §4.5 (the plan side). -/
structure PlanStore where
  plans : List SavedPlan
deriving DecidableEq, Repr

/-- Modelled from the spec: the default title generated when `savePlan` is
called without one (§4.5: a label derived from city + dates). -/
def defaultTitle (city startDate endDate : String) : String :=
  city ++ " (" ++ startDate ++ " - " ++ endDate ++ ")"

/-- Modelled from the spec: the backend `savePlan` (§4.5) is not in src/.
The plan embeds the session-derived metadata and the whole route, belongs to
`userId`, gets a caller-supplied fresh unique id, and is appended to the
store. -/
def savePlan (st : PlanStore) (userId : String) (sess : Session)
    (route : TravelRoute) (title : Option String) (freshId : String)
    (now : Nat) : PlanStore × SavedPlan :=
  let p : SavedPlan :=
    ⟨freshId, userId, sess.city, sess.startDate, sess.endDate, sess.interests,
     now, title.getD (defaultTitle sess.city sess.startDate sess.endDate), route⟩
  (⟨st.plans ++ [p]⟩, p)

/-- Modelled from the spec: the backend `listPlans` (§4.5) is not in src/;
the listing is scoped to the authenticated user. -/
def listPlans (st : PlanStore) (userId : String) : List SavedPlan :=
  st.plans.filter fun p => p.userId == userId

/-- Modelled from the spec: the backend `getPlan` (§4.5) is not in src/.  An
unknown id fails with NotFoundError; a plan the token's user does not own
fails with ForbiddenError (the documented pick of §9). -/
def getPlan (st : PlanStore) (userId planId : String) :
    Except ApiError SavedPlan :=
  match st.plans.find? (fun p => p.id == planId) with
  | none => Except.error ApiError.NotFoundError
  | some p =>
    if p.userId == userId then Except.ok p
    else Except.error ApiError.ForbiddenError

/-- Concrete fixture: a selected attraction. -/
def exAttr1 : Attraction :=
  ⟨some "a1", "Louvre", "World-class museum", 2, "Museums", none, none,
   some (48, 2), some true⟩

/-- Concrete fixture: a second selected attraction. -/
def exAttr2 : Attraction :=
  ⟨some "a2", "Eiffel Tower", "Iconic landmark", 1, "Architecture", none, none,
   some (48, 2), some true⟩

/-- Concrete fixture: first stop of day 1. -/
def exStop1 : RouteStop := ⟨exAttr1, 1, "09:00", "11:00", some 15, 1⟩

/-- Concrete fixture: second stop of day 1. -/
def exStop2 : RouteStop := ⟨exAttr2, 2, "11:30", "12:30", none, 1⟩

/-- Concrete fixture: a two-stop route satisfying the ordering invariant. -/
def exRoute : TravelRoute := ⟨[exStop1, exStop2], 3, "A lovely day in Paris."⟩

/-- Concrete fixture: the same stops visited in the reverse sequence. -/
def exRoute2 : TravelRoute :=
  ⟨[⟨exAttr2, 1, "09:00", "10:00", some 20, 1⟩, ⟨exAttr1, 2, "10:30", "12:30", none, 1⟩],
   3, "Tower first, then the museum."⟩

/-- Concrete fixture: a planning session. -/
def exSession : UserSession :=
  ⟨"s1", "Paris", "2025-11-01", "2025-11-03", ["Museums", "Food & Dining"]⟩

/-- Concrete fixture: map-page state holding a generated route. -/
def exMapState : MapState :=
  ⟨some exSession, [exAttr1, exAttr2], some exRoute, [], false, true, false⟩

/-- Concrete fixture: map-page state with a single unselected attraction. -/
def exMapStateNoSel : MapState :=
  ⟨some exSession, [{ exAttr1 with selected := none }], none, [], false, false, false⟩

/-- Concrete fixture: an authenticated user. -/
def exUser : User := ⟨"u1", "alice@example.com", "Alice", ["Museums"], "2025-01-01"⟩

/-- Concrete fixture: browser localStorage holding one unrelated key and one
wandermind key. -/
def exStorage : String → Option String := fun k =>
  if k = "theme" then some "dark"
  else if k = "wandermind_token" then some "tok" else none

/-- C10: `logout` always resets both the in-memory user and token to `none`
and removes exactly the keys `wandermind_token`, `wandermind_user` and
`wandermind_session` from localStorage, leaving any other stored key
untouched, regardless of the prior authentication state. -/
theorem logout_resets_and_frames (st : AuthState) (ls : String → Option String) :
    (logout st ls).1.user = none ∧ (logout st ls).1.token = none ∧
    (logout st ls).2 "wandermind_token" = none ∧
    (logout st ls).2 "wandermind_user" = none ∧
    (logout st ls).2 "wandermind_session" = none ∧
    ∀ k, k ≠ "wandermind_token" → k ≠ "wandermind_user" →
      k ≠ "wandermind_session" → (logout st ls).2 k = ls k := by
  refine ⟨rfl, rfl, ?_, ?_, ?_, ?_⟩
  · simp [logout, removeItem]
  · simp [logout, removeItem]
  · simp [logout, removeItem]
  · intro k h1 h2 h3
    simp [logout, removeItem, h1, h2, h3]

/-- Witness for C10 at a concrete prior state and storage: the unrelated
`theme` key survives `logout` with its value intact. -/
theorem logout_resets_and_frames_witness :
    ("theme" ≠ "wandermind_token" ∧ "theme" ≠ "wandermind_user" ∧
      "theme" ≠ "wandermind_session") ∧
    (logout ⟨some exUser, some "tok"⟩ exStorage).2 "theme" = exStorage "theme" :=
  ⟨⟨by decide, by decide, by decide⟩,
   (logout_resets_and_frames ⟨some exUser, some "tok"⟩ exStorage).2.2.2.2.2 "theme"
     (by decide) (by decide) (by decide)⟩

/-- C8: clicking an attraction flips the `selected` boolean of exactly the
attractions whose `id` equals the clicked attraction's `id`, leaves every
other field of every attraction unchanged, and preserves the list's length
and order (stated position-wise). -/
theorem attraction_click_frame (l : List Attraction) (c : Attraction) (i : Nat)
    (a : Attraction) (h : l[i]? = some a) :
    (handleAttractionClick l c).length = l.length ∧
    ∃ a', (handleAttractionClick l c)[i]? = some a' ∧
      a'.id = a.id ∧ a'.name = a.name ∧ a'.description = a.description ∧
      a'.duration_hr = a.duration_hr ∧ a'.category = a.category ∧
      a'.latitude = a.latitude ∧ a'.longitude = a.longitude ∧
      a'.coordinates = a.coordinates ∧
      (a.id = c.id → a'.selected = some (!(a.selected.getD false))) ∧
      (a.id ≠ c.id → a' = a) := by
  refine ⟨by simp [handleAttractionClick],
    ⟨if a.id = c.id then toggleSelected a else a, ?_, ?_⟩⟩
  · simp [handleAttractionClick, h]
  · by_cases hid : a.id = c.id <;> simp [hid, toggleSelected]

/-- Witness for C8: clicking the first fixture attraction in a concrete
two-element list keeps the list length at 2. -/
theorem attraction_click_frame_witness :
    ([exAttr1, exAttr2] : List Attraction)[0]? = some exAttr1 ∧
    (handleAttractionClick [exAttr1, exAttr2] exAttr1).length =
      ([exAttr1, exAttr2] : List Attraction).length :=
  ⟨rfl, (attraction_click_frame [exAttr1, exAttr2] exAttr1 0 exAttr1 rfl).1⟩

/-- C3: with fewer than 2 selected attractions, `handleGenerateRoute` emits a
single error message and returns before calling the route API — the request
is `none`, and the route, attraction and session state are unchanged;
server-side (modelled from spec §4.3) `generateRoute` fails with
ValidationError below the 2-attraction threshold, producing no Route. -/
theorem generate_route_underflow (st : MapState) (sess : UserSession)
    (now : Nat) (apiResult : Except Unit TravelRoute)
    (hs : st.session = some sess)
    (hcount : (selectedOf st.attractions).length < 2) :
    ((handleGenerateRoute st now apiResult).2 = none ∧
     (handleGenerateRoute st now apiResult).1.route = st.route ∧
     (handleGenerateRoute st now apiResult).1.attractions = st.attractions ∧
     (handleGenerateRoute st now apiResult).1.session = st.session ∧
     (handleGenerateRoute st now apiResult).1.messages = st.messages ++
       [⟨Role.assistant, "Please select at least 2 attractions to generate a route.", now⟩]) ∧
    ∀ (s : UserSession) (attrs : List Attraction) (m : Except Unit TravelRoute),
      attrs.length < 2 →
        Gateway.generateRoute s attrs m = Except.error ApiError.ValidationError := by
  constructor
  · simp [handleGenerateRoute, hs, hcount]
  · intro s attrs m hlen
    simp [Gateway.generateRoute, hlen]

/-- Witness for C3 at a concrete state with one unselected attraction: no
request is issued and the route state stays `none`. -/
theorem generate_route_underflow_witness :
    (exMapStateNoSel.session = some exSession ∧
      (selectedOf exMapStateNoSel.attractions).length < 2) ∧
    (handleGenerateRoute exMapStateNoSel 3 (Except.error ())).2 = none ∧
    (handleGenerateRoute exMapStateNoSel 3 (Except.error ())).1.route =
      exMapStateNoSel.route :=
  ⟨⟨rfl, by decide⟩,
   (generate_route_underflow exMapStateNoSel exSession 3 (Except.error ()) rfl
      (by decide)).1.1,
   (generate_route_underflow exMapStateNoSel exSession 3 (Except.error ()) rfl
      (by decide)).1.2.1⟩

/-- C1: when a refine call fails (the awaited API call throws), the client's
held Route is left unchanged — the error handler only appends the assistant
error message after the user message, and never clears or replaces the route
state (attractions and session are also untouched). -/
theorem refine_failure_preserves_route (st : MapState) (sess : UserSession)
    (r : TravelRoute) (msg : String) (now : Nat)
    (hs : st.session = some sess) (hv : st.isViewingSavedPlan = false)
    (hr : st.route = some r) :
    (handleSendMessage st msg now (Except.error ())).1.route = some r ∧
    (handleSendMessage st msg now (Except.error ())).1.attractions = st.attractions ∧
    (handleSendMessage st msg now (Except.error ())).1.session = st.session ∧
    (handleSendMessage st msg now (Except.error ())).1.messages = st.messages ++
      [⟨Role.user, msg, now⟩,
       ⟨Role.assistant, "Sorry, I had trouble refining your route. Please try again.", now⟩] := by
  simp [handleSendMessage, hs, hv, hr]

/-- Witness for C1 at a concrete state holding `exRoute`: a failing refine
call leaves the route exactly as it was. -/
theorem refine_failure_preserves_route_witness :
    (exMapState.session = some exSession ∧ exMapState.isViewingSavedPlan = false ∧
      exMapState.route = some exRoute) ∧
    (handleSendMessage exMapState "add a dinner stop" 5 (Except.error ())).1.route =
      some exRoute :=
  ⟨⟨rfl, rfl, rfl⟩,
   (refine_failure_preserves_route exMapState exSession exRoute "add a dinner stop" 5
      rfl rfl rfl).1⟩

/-- C4: refinement is whole-document replace — the refine branch submits the
entire current Route together with the free-text instruction as the request
body, and on success the client's route state becomes exactly the returned
Route, independent of every field of the old one. -/
theorem refine_whole_document_replace (st : MapState) (sess : UserSession)
    (r : TravelRoute) (msg : String) (now : Nat)
    (hs : st.session = some sess) (hv : st.isViewingSavedPlan = false)
    (hr : st.route = some r) (res : Except Unit TravelRoute) :
    (handleSendMessage st msg now res).2 =
      some (ApiRequest.refineReq sess.sessionId msg r) ∧
    ∀ rr, res = Except.ok rr →
      (handleSendMessage st msg now res).1.route = some rr := by
  cases res with
  | ok rr =>
    refine ⟨by simp [handleSendMessage, hs, hv, hr], ?_⟩
    intro rr' hrr'
    cases hrr'
    simp [handleSendMessage, hs, hv, hr]
  | error e =>
    refine ⟨by simp [handleSendMessage, hs, hv, hr], ?_⟩
    intro rr' hrr'
    cases hrr'

/-- Witness for C4: a successful refine call on the fixture state submits the
whole held route and replaces it by the returned one. -/
theorem refine_whole_document_replace_witness :
    (exMapState.session = some exSession ∧ exMapState.isViewingSavedPlan = false ∧
      exMapState.route = some exRoute) ∧
    (handleSendMessage exMapState "visit the tower first" 7 (Except.ok exRoute2)).2 =
      some (ApiRequest.refineReq exSession.sessionId "visit the tower first" exRoute) ∧
    (handleSendMessage exMapState "visit the tower first" 7 (Except.ok exRoute2)).1.route =
      some exRoute2 :=
  ⟨⟨rfl, rfl, rfl⟩,
   (refine_whole_document_replace exMapState exSession exRoute "visit the tower first" 7
      rfl rfl rfl (Except.ok exRoute2)).1,
   (refine_whole_document_replace exMapState exSession exRoute "visit the tower first" 7
      rfl rfl rfl (Except.ok exRoute2)).2 exRoute2 rfl⟩

/-- C7 counterexample: with non-empty city, dates and interests but
`startDate > endDate`, the onboarding client issues the `/api/init` call even
though the claimed validation condition is violated — the claim's "no API
call issued" is false at this input. -/
theorem session_validation_counterexample :
    strLE "2025-11-03" "2025-11-01" = false ∧
    (handleSubmit "Paris" "2025-11-03" "2025-11-01" ["Museums"]).request =
      some ⟨"Paris", "2025-11-03", "2025-11-01", ["Museums"]⟩ := by
  constructor
  · decide
  · decide

/-- C7 amended: the client-side `handleSubmit` blocks the API call (with the
aggregate error banner) exactly when city, startDate or endDate is empty or
no interest is selected — it does not compare the dates — while the
server-side Session Store `create` (modelled from spec §4.1) validates city
non-empty, `startDate ≤ endDate` and interests non-empty, fails with
ValidationError creating no session when any of these is violated, and
otherwise stores and returns a fresh Session. -/
theorem session_create_validation :
    (∀ (city startDate endDate : String) (interests : List String),
        city = "" ∨ startDate = "" ∨ endDate = "" ∨ interests = [] →
        handleSubmit city startDate endDate interests =
          ⟨some "Please fill in all fields and select at least one interest", none⟩) ∧
    (∀ (city startDate endDate : String) (interests : List String),
        ¬(city = "" ∨ startDate = "" ∨ endDate = "" ∨ interests = []) →
        handleSubmit city startDate endDate interests =
          ⟨none, some ⟨city, startDate, endDate, interests⟩⟩) ∧
    (∀ (st : SessionStore) (city startDate endDate : String)
        (interests : List String) (freshId : String),
        city = "" ∨ strLE startDate endDate = false ∨ interests = [] →
        SessionStore.create st city startDate endDate interests freshId =
          Except.error ApiError.ValidationError) ∧
    (∀ (st : SessionStore) (city startDate endDate : String)
        (interests : List String) (freshId : String),
        city ≠ "" → strLE startDate endDate = true → interests ≠ [] →
        SessionStore.create st city startDate endDate interests freshId =
          Except.ok (⟨freshId, city, startDate, endDate, interests⟩,
            ⟨st.sessions ++ [⟨freshId, city, startDate, endDate, interests⟩]⟩)) := by
  refine ⟨?_, ?_, ?_, ?_⟩
  · intro city startDate endDate interests h
    unfold handleSubmit
    rw [if_pos h]
  · intro city startDate endDate interests h
    unfold handleSubmit
    rw [if_neg h]
  · intro st city startDate endDate interests freshId h
    rcases h with h | h | h <;> simp [SessionStore.create, h]
  · intro st city startDate endDate interests freshId h1 h2 h3
    simp [SessionStore.create, h1, h2, h3]

/-- Witness for C7's amended statement: a valid concrete init request is
accepted by the modelled Session Store and stored. -/
theorem session_create_validation_witness :
    ("Paris" ≠ "" ∧ strLE "2025-11-01" "2025-11-03" = true ∧
      (["Museums"] : List String) ≠ []) ∧
    SessionStore.create ⟨[]⟩ "Paris" "2025-11-01" "2025-11-03" ["Museums"] "s1" =
      Except.ok (⟨"s1", "Paris", "2025-11-01", "2025-11-03", ["Museums"]⟩,
        ⟨[⟨"s1", "Paris", "2025-11-01", "2025-11-03", ["Museums"]⟩]⟩) :=
  ⟨⟨by decide, by decide, by decide⟩,
   session_create_validation.2.2.2 ⟨[]⟩ "Paris" "2025-11-01" "2025-11-03" ["Museums"]
     "s1" (by decide) (by decide) (by decide)⟩

/-- Looking up the freshly assigned id in the store right after `savePlan`
finds exactly the plan just saved, provided the id was fresh. -/
lemma find?_savePlan (st : PlanStore) (userId : String) (sess : Session)
    (route : TravelRoute) (title : Option String) (freshId : String) (now : Nat)
    (hfresh : ∀ p ∈ st.plans, p.id ≠ freshId) :
    ((savePlan st userId sess route title freshId now).1.plans).find?
        (fun p => p.id == freshId) =
      some (savePlan st userId sess route title freshId now).2 := by
  have hnone : st.plans.find? (fun p => p.id == freshId) = none :=
    List.find?_eq_none.mpr fun x hx => by simp [hfresh x hx]
  simp [savePlan, List.find?_append, hnone]

/-- C6: saving a Route and then fetching the resulting plan by its id (as its
owner) returns that very plan, whose embedded route — stops, attractions,
order, day and times included — is exactly the route that was saved.
Modelled from spec §4.5 (the backend plan store is not in src/). -/
theorem plan_save_roundtrip (st : PlanStore) (userId : String) (sess : Session)
    (route : TravelRoute) (title : Option String) (freshId : String) (now : Nat)
    (hfresh : ∀ p ∈ st.plans, p.id ≠ freshId) :
    getPlan (savePlan st userId sess route title freshId now).1 userId
        (savePlan st userId sess route title freshId now).2.id =
      Except.ok (savePlan st userId sess route title freshId now).2 ∧
    (savePlan st userId sess route title freshId now).2.route = route := by
  refine ⟨?_, rfl⟩
  have hid : (savePlan st userId sess route title freshId now).2.id = freshId := rfl
  rw [hid]
  have hf := find?_savePlan st userId sess route title freshId now hfresh
  unfold getPlan
  rw [hf]
  simp [savePlan]

/-- Witness for C6: a round-trip through an initially empty store returns the
saved fixture route intact. -/
theorem plan_save_roundtrip_witness :
    (∀ p ∈ (⟨[]⟩ : PlanStore).plans, p.id ≠ "p1") ∧
    getPlan (savePlan ⟨[]⟩ "u1" ⟨"s1", "Paris", "2025-11-01", "2025-11-03", ["Museums"]⟩
        exRoute none "p1" 9).1 "u1"
        (savePlan ⟨[]⟩ "u1" ⟨"s1", "Paris", "2025-11-01", "2025-11-03", ["Museums"]⟩
          exRoute none "p1" 9).2.id =
      Except.ok (savePlan ⟨[]⟩ "u1" ⟨"s1", "Paris", "2025-11-01", "2025-11-03", ["Museums"]⟩
        exRoute none "p1" 9).2 :=
  ⟨by simp,
   (plan_save_roundtrip ⟨[]⟩ "u1" ⟨"s1", "Paris", "2025-11-01", "2025-11-03", ["Museums"]⟩
      exRoute none "p1" 9 (by simp)).1⟩

/-- C5: after user `a` saves a plan, listing plans as a different user `b`
never returns `a`'s plan (indeed every listed plan belongs to `b`), and
fetching `a`'s plan id as `b` fails with ForbiddenError or NotFoundError and
never succeeds.  Modelled from spec §4.5/§9 (the backend plan store is not in
src/; the non-owner fetch is documented as ForbiddenError). -/
theorem plan_ownership_isolation (st : PlanStore) (a b : String) (sess : Session)
    (route : TravelRoute) (title : Option String) (freshId : String) (now : Nat)
    (hab : a ≠ b) (hfresh : ∀ p ∈ st.plans, p.id ≠ freshId) :
    (savePlan st a sess route title freshId now).2 ∉
      listPlans (savePlan st a sess route title freshId now).1 b ∧
    (∀ q ∈ listPlans (savePlan st a sess route title freshId now).1 b,
      q.userId = b) ∧
    (getPlan (savePlan st a sess route title freshId now).1 b
        (savePlan st a sess route title freshId now).2.id =
      Except.error ApiError.ForbiddenError ∨
     getPlan (savePlan st a sess route title freshId now).1 b
        (savePlan st a sess route title freshId now).2.id =
      Except.error ApiError.NotFoundError) := by
  refine ⟨?_, ?_, Or.inl ?_⟩
  · intro hmem
    unfold listPlans at hmem
    have h2 := (List.mem_filter.mp hmem).2
    exact hab (by simpa [savePlan] using h2)
  · intro q hq
    unfold listPlans at hq
    have h2 := (List.mem_filter.mp hq).2
    simpa using h2
  · have hid : (savePlan st a sess route title freshId now).2.id = freshId := rfl
    rw [hid]
    have hf := find?_savePlan st a sess route title freshId now hfresh
    unfold getPlan
    rw [hf]
    simp [savePlan, hab]

/-- Witness for C5: with users `alice` and `bob` and an initially empty
store, `bob` fetching `alice`'s freshly saved plan id is Forbidden. -/
theorem plan_ownership_isolation_witness :
    ("alice" ≠ "bob" ∧ ∀ p ∈ (⟨[]⟩ : PlanStore).plans, p.id ≠ "p1") ∧
    (getPlan (savePlan ⟨[]⟩ "alice" ⟨"s1", "Paris", "2025-11-01", "2025-11-03", ["Museums"]⟩
        exRoute none "p1" 9).1 "bob"
        (savePlan ⟨[]⟩ "alice" ⟨"s1", "Paris", "2025-11-01", "2025-11-03", ["Museums"]⟩
          exRoute none "p1" 9).2.id =
      Except.error ApiError.ForbiddenError ∨
     getPlan (savePlan ⟨[]⟩ "alice" ⟨"s1", "Paris", "2025-11-01", "2025-11-03", ["Museums"]⟩
        exRoute none "p1" 9).1 "bob"
        (savePlan ⟨[]⟩ "alice" ⟨"s1", "Paris", "2025-11-01", "2025-11-03", ["Museums"]⟩
          exRoute none "p1" 9).2.id =
      Except.error ApiError.NotFoundError) :=
  ⟨⟨by decide, by simp⟩,
   (plan_ownership_isolation ⟨[]⟩ "alice" "bob"
      ⟨"s1", "Paris", "2025-11-01", "2025-11-03", ["Museums"]⟩
      exRoute none "p1" 9 (by decide) (by simp)).2.2⟩

/-- C2: any Route returned by the (spec-modelled) Route or Refinement Gateway
satisfies the §3 invariant — for every day present in the route, the stops of
that day sorted by `order` have non-decreasing `startTime` (both gateways
validate the invariant and reject violating model output with
UpstreamError). -/
theorem gateway_routes_ordered (s : UserSession) (attrs : List Attraction)
    (rt : TravelRoute) (ins : String) (m : Except Unit TravelRoute)
    (r : TravelRoute)
    (h : Gateway.generateRoute s attrs m = Except.ok r ∨
         Gateway.refine s rt ins m = Except.ok r) :
    ∀ d ∈ r.stops.map RouteStop.day,
      startTimesNondec (sortedByOrder (r.stops.filter fun x => x.day == d)) = true := by
  have hord : routeOrderedB r = true := by
    rcases h with h | h
    · unfold Gateway.generateRoute at h
      split at h
      · exact absurd h (by simp)
      · cases m with
        | error e => simp at h
        | ok r0 =>
          by_cases hr0 : routeOrderedB r0
          · simp [hr0] at h
            rw [← h]
            exact hr0
          · simp [hr0] at h
    · unfold Gateway.refine at h
      cases m with
      | error e => simp at h
      | ok r0 =>
        by_cases hr0 : routeOrderedB r0
        · simp [hr0] at h
          rw [← h]
          exact hr0
        · simp [hr0] at h
  intro d hd
  have hmem : d ∈ (r.stops.map RouteStop.day).dedup := List.mem_dedup.mpr hd
  exact List.all_eq_true.mp hord d hmem

/-- Witness for C2: the fixture route passes the gateway check and its single
day is non-decreasing in `startTime` when sorted by `order`. -/
theorem gateway_routes_ordered_witness :
    (Gateway.generateRoute exSession [exAttr1, exAttr2] (Except.ok exRoute) =
        Except.ok exRoute ∨
     Gateway.refine exSession exRoute "x" (Except.ok exRoute) = Except.ok exRoute) ∧
    (1 ∈ exRoute.stops.map RouteStop.day ∧
     startTimesNondec (sortedByOrder (exRoute.stops.filter fun x => x.day == 1)) = true) :=
  ⟨Or.inl rfl,
   ⟨by decide,
    gateway_routes_ordered exSession [exAttr1, exAttr2] exRoute "x"
      (Except.ok exRoute) exRoute (Or.inl rfl) 1 (by decide)⟩⟩

/-- `pushToDay` preserves the invariant that every stop in a bucket carries
that bucket's day. -/
lemma pushToDay_day_inv : ∀ (acc : List (Nat × List RouteStop)) (s : RouteStop),
    (∀ q ∈ acc, ∀ x ∈ q.2, x.day = q.1) →
    ∀ q ∈ pushToDay acc s, ∀ x ∈ q.2, x.day = q.1 := by
  intro acc
  induction acc with
  | nil =>
    intro s _ q hq x hx
    simp only [pushToDay, List.mem_singleton] at hq
    subst hq
    simp only [List.mem_singleton] at hx
    subst hx
    rfl
  | cons hd tl ih =>
    intro s h q hq x hx
    obtain ⟨d, l⟩ := hd
    have hhd : ∀ x ∈ l, x.day = d := fun x hx => h (d, l) (by simp) x hx
    have htl : ∀ q ∈ tl, ∀ x ∈ q.2, x.day = q.1 :=
      fun q hq => h q (List.mem_cons_of_mem _ hq)
    by_cases hds : d = s.day
    · simp only [pushToDay, if_pos hds] at hq
      rcases List.mem_cons.mp hq with hq | hq
      · subst hq
        rcases List.mem_append.mp hx with hx' | hx'
        · exact hhd x hx'
        · simp only [List.mem_singleton] at hx'
          subst hx'
          exact hds.symm
      · exact htl q hq x hx
    · simp only [pushToDay, if_neg hds] at hq
      rcases List.mem_cons.mp hq with hq | hq
      · subst hq
        exact hhd x hx
      · exact ih s htl q hq x hx

/-- Pushing one stop permutes the flattened buckets into "old contents plus
that stop". -/
lemma joinGroups_pushToDay (acc : List (Nat × List RouteStop)) (s : RouteStop) :
    (joinGroups (pushToDay acc s)).Perm (joinGroups acc ++ [s]) := by
  induction acc with
  | nil => simp [pushToDay, joinGroups]
  | cons hd tl ih =>
    obtain ⟨d, l⟩ := hd
    by_cases hds : d = s.day
    · simp only [pushToDay, if_pos hds]
      have h1 : joinGroups ((d, l ++ [s]) :: tl) = l ++ ([s] ++ joinGroups tl) := by
        simp [joinGroups, List.append_assoc]
      have h2 : joinGroups ((d, l) :: tl) ++ [s] = l ++ (joinGroups tl ++ [s]) := by
        simp [joinGroups, List.append_assoc]
      rw [h1, h2]
      exact List.Perm.append_left l List.perm_append_comm
    · simp only [pushToDay, if_neg hds]
      have h1 : joinGroups ((d, l) :: pushToDay tl s) =
          l ++ joinGroups (pushToDay tl s) := by
        simp [joinGroups]
      have h2 : joinGroups ((d, l) :: tl) ++ [s] = l ++ (joinGroups tl ++ [s]) := by
        simp [joinGroups, List.append_assoc]
      rw [h1, h2]
      exact List.Perm.append_left l ih

/-- Folding `pushToDay` over a stop list permutes the flattened buckets into
"initial contents followed by the stops". -/
lemma joinGroups_foldl : ∀ (stops : List RouteStop) (acc : List (Nat × List RouteStop)),
    (joinGroups (stops.foldl pushToDay acc)).Perm (joinGroups acc ++ stops) := by
  intro stops
  induction stops with
  | nil => intro acc; simp
  | cons s rest ih =>
    intro acc
    have h1 : (s :: rest).foldl pushToDay acc = rest.foldl pushToDay (pushToDay acc s) := rfl
    rw [h1]
    refine ((ih (pushToDay acc s)).trans ?_)
    have h2 := List.Perm.append_right rest (joinGroups_pushToDay acc s)
    have h3 : (joinGroups acc ++ [s]) ++ rest = joinGroups acc ++ (s :: rest) := by
      simp
    rw [h3] at h2
    exact h2

/-- C9: the timeline's day-grouping is a partition of the input stop list —
every stop lands in the bucket of its own `day` value, the multiset union of
all buckets is exactly the input list, and the rendered stops of each day are
a permutation of that day's bucket sorted in ascending `order`. -/
theorem timeline_day_partition (stops : List RouteStop) :
    (∀ q ∈ groupedByDay stops, ∀ x ∈ q.2, x.day = q.1) ∧
    (joinGroups (groupedByDay stops)).Perm stops ∧
    ∀ d, (renderedDay stops d).Perm (dayEntry stops d) ∧
      List.Sorted (fun a b => a.order ≤ b.order) (renderedDay stops d) := by
  refine ⟨?_, ?_, ?_⟩
  · have base : ∀ q ∈ ([] : List (Nat × List RouteStop)), ∀ x ∈ q.2, x.day = q.1 := by
      simp
    have step : ∀ (rest : List RouteStop) (acc : List (Nat × List RouteStop)),
        (∀ q ∈ acc, ∀ x ∈ q.2, x.day = q.1) →
        ∀ q ∈ rest.foldl pushToDay acc, ∀ x ∈ q.2, x.day = q.1 := by
      intro rest
      induction rest with
      | nil => intro acc h; simpa using h
      | cons s rest' ih =>
        intro acc h
        exact ih (pushToDay acc s) (pushToDay_day_inv acc s h)
    exact step stops [] base
  · have := joinGroups_foldl stops []
    simpa [groupedByDay, joinGroups] using this
  · intro d
    haveI : IsTotal RouteStop (fun a b => a.order ≤ b.order) :=
      ⟨fun a b => Nat.le_total a.order b.order⟩
    haveI : IsTrans RouteStop (fun a b => a.order ≤ b.order) :=
      ⟨fun _ _ _ h1 h2 => Nat.le_trans h1 h2⟩
    exact ⟨List.perm_insertionSort _ _, List.sorted_insertionSort _ _⟩

/-- Witness for C9 at a concrete two-stop list: the stop found in the day-1
bucket indeed has `day = 1`. -/
theorem timeline_day_partition_witness :
    ((1, [exStop1, exStop2]) ∈ groupedByDay [exStop1, exStop2] ∧
      exStop1 ∈ [exStop1, exStop2]) ∧
    exStop1.day = 1 :=
  ⟨⟨by decide, by decide⟩,
   (timeline_day_partition [exStop1, exStop2]).1 (1, [exStop1, exStop2]) (by decide)
     exStop1 (by decide)⟩

end WanderMind

example : WanderMind.strLE "09:00" "10:30" = true := by decide

example : WanderMind.strLE "2025-11-03" "2025-11-01" = false := by decide
